import Mathlib

/-!
Shallow embedding of pydataform (src/pydataform/dataform.py and
src/examples/advanced_workflow.py) and proofs about its specification.

The remote Dataform API client is external to the repository; its
`get_workflow_invocation` endpoint is modelled as a function from invocation
names to snapshots.  Machine time is modelled as a natural number of seconds
elapsed since the start of the operation under study; `time.sleep(d)` advances
it by `d` and remote calls are instantaneous.
-/

namespace PyDataform

/-- Protobuf timestamp: seconds plus nanoseconds, as in
`invocation_timing.start_time` / `end_time` of the client library. -/
structure Timestamp where
  seconds : Int
  nanos : Int
  deriving DecidableEq, Repr

/-- Workflow invocation state.  The enum lives in the external client library
(`dataform_v1beta1.WorkflowInvocation.State`); the value set here is the one the
spec's data model gives (PENDING, RUNNING, SUCCEEDED, FAILED, CANCELLED), which
covers every member the repository's code references. -/
inductive WState where
  | PENDING
  | RUNNING
  | SUCCEEDED
  | FAILED
  | CANCELLED
  deriving DecidableEq, Repr

/-- `invocation_timing` message: optional start and end timestamps.  An unset
message field is falsy in the Python protobuf bindings, which the accessors
translate as `none`. -/
structure InvocationTiming where
  start_time : Option Timestamp
  end_time : Option Timestamp
  deriving DecidableEq, Repr

/-- A workflow invocation snapshot as returned by the remote API
(`dataform_v1beta1.WorkflowInvocation`). -/
structure WorkflowInvocation where
  name : String
  compilation_result : String
  state : WState
  invocation_timing : Option InvocationTiming
  deriving DecidableEq, Repr

/-- `DataformWorkflow`: wraps the latest fetched snapshot
(`self._workflow_invocation`).  The client reference is passed explicitly to
the effectful operations as the `remote` function. -/
structure Handle where
  inv : WorkflowInvocation
  deriving DecidableEq, Repr

/-- One remote round trip made through the client. -/
inductive RemoteCall where
  | getInvocation (name : String)
  deriving DecidableEq, Repr

/-- `DataformWorkflow.refresh`: replaces the stored snapshot with
`client.get_workflow_invocation(name=self.name)` and records the remote call. -/
def refreshOp (remote : String → WorkflowInvocation) (h : Handle) :
    Handle × List RemoteCall :=
  (⟨remote h.inv.name⟩, [RemoteCall.getInvocation h.inv.name])

/-- `DataformWorkflow.start_time`: returns `None` when `invocation_timing` is
unset or its `start_time` is unset, otherwise the seconds/nanos pair.  No
refresh, no remote call. -/
def Handle.start_time (h : Handle) : Option Timestamp :=
  match h.inv.invocation_timing with
  | none => none
  | some t => t.start_time

/-- `DataformWorkflow.end_time`: same shape as `start_time` for the end
timestamp. -/
def Handle.end_time (h : Handle) : Option Timestamp :=
  match h.inv.invocation_timing with
  | none => none
  | some t => t.end_time

/-- `DataformWorkflow.duration_seconds`:
`(end.seconds - start.seconds) + (end.nanos - start.nanos) / 1e9`, or `None`
when either accessor returns `None`.  Python floats are modelled as exact
rationals. -/
def Handle.duration_seconds (h : Handle) : Option ℚ :=
  match h.start_time, h.end_time with
  | some s, some e =>
      some ((e.seconds - s.seconds : ℚ) + (e.nanos - s.nanos : ℚ) / 1000000000)
  | _, _ => none

/-- The `terminal_states` list from `DataformWorkflow.is_complete`. -/
def terminal_states : List WState :=
  [WState.SUCCEEDED, WState.CANCELLED, WState.FAILED]

/-- `DataformWorkflow.is_complete`: refreshes first, then tests membership of
the (fresh) state in `terminal_states`.  Returns the boolean, the mutated
handle, and the remote calls made. -/
def Handle.is_complete (remote : String → WorkflowInvocation) (h : Handle) :
    Bool × Handle × List RemoteCall :=
  let r := refreshOp remote h
  (terminal_states.contains r.1.inv.state, r.1, r.2)

/-- `DataformWorkflow.is_successful`: refreshes, then compares the state to
SUCCEEDED. -/
def Handle.is_successful (remote : String → WorkflowInvocation) (h : Handle) :
    Bool × Handle × List RemoteCall :=
  let r := refreshOp remote h
  (r.1.inv.state == WState.SUCCEEDED, r.1, r.2)

/-- Effectful wrapper of the `start_time` accessor: the Python property body
contains no `self.refresh()` call, so the handle passes through unchanged and
the remote-call trace is empty. -/
def startTimeOp (h : Handle) : Option Timestamp × Handle × List RemoteCall :=
  (h.start_time, h, [])

/-- Effectful wrapper of the `end_time` accessor: no refresh in the body. -/
def endTimeOp (h : Handle) : Option Timestamp × Handle × List RemoteCall :=
  (h.end_time, h, [])

/-- Effectful wrapper of `duration_seconds`: its body reads `self.start_time`
and `self.end_time`, neither of which refreshes. -/
def durationSecondsOp (h : Handle) : Option ℚ × Handle × List RemoteCall :=
  (h.duration_seconds, h, [])

/-- The spec's characterisation of completeness, written from the spec's words:
true iff the state is SUCCEEDED, FAILED, or CANCELLED. -/
def specIsComplete (s : WState) : Bool :=
  match s with
  | WState.SUCCEEDED => true
  | WState.FAILED => true
  | WState.CANCELLED => true
  | WState.PENDING => false
  | WState.RUNNING => false

/-! ### `wait_for_completion`

The loop body is translated step by step from `DataformWorkflow.wait_for_completion`:
`start_time = time.time()`; `while time.time() - start_time < timeout_seconds:`
then `self.refresh()`, then `if self.is_complete: return self` (which refreshes
again), then `time.sleep(poll_interval_seconds)`; after the loop,
`raise TimeoutError`.  Time is measured as seconds elapsed since `start_time`,
and the remote is indexed by that elapsed time so the observed state may change
while waiting.  Python's `while` has no intrinsic bound, so the recursion
carries fuel; the theorems supply enough fuel for the loop to finish. -/

/-- Observable events of one `wait_for_completion` run, each tagged with the
elapsed time at which it happens. -/
inductive WEvent where
  | refreshEv (t : Nat)
  | checkEv (t : Nat) (isTerminal : Bool)
  | sleepEv (t : Nat) (d : Nat)
  deriving DecidableEq, Repr

/-- Outcome of `wait_for_completion`: the handle returned on completion, or the
`TimeoutError`; both record the elapsed time at which they happen. -/
inductive WaitResult where
  | completed (h : Handle) (elapsed : Nat)
  | timedOut (elapsed : Nat)
  deriving DecidableEq, Repr

/-- `DataformWorkflow.wait_for_completion` at elapsed time `e` with `fuel`
remaining loop iterations.  `none` means the fuel ran out while the loop was
still going (only possible when the theorems' fuel bound is violated). -/
def waitFor (remote : Nat → String → WorkflowInvocation)
    (poll timeout : Nat) :
    Nat → Nat → Handle → Option WaitResult × List WEvent
  | 0, _, _ => (none, [])
  | fuel + 1, e, h =>
      if e < timeout then
        let r1 := refreshOp (remote e) h
        let r2 := Handle.is_complete (remote e) r1.1
        if r2.1 then
          (some (WaitResult.completed r2.2.1 e),
           [WEvent.refreshEv e, WEvent.refreshEv e, WEvent.checkEv e true])
        else
          let rest := waitFor remote poll timeout fuel (e + poll) r2.2.1
          (rest.1,
           WEvent.refreshEv e :: WEvent.refreshEv e :: WEvent.checkEv e false ::
             WEvent.sleepEv e poll :: rest.2)
      else
        (some (WaitResult.timedOut e), [])

/-! ### `WorkflowManager._run_workflow_with_retry`

The loop is driven by two oracles: `sub k` is the outcome of the `k`-th call to
`self.service.run_workflow(...)` (the compile+invoke submission; `Except.error`
models a raised exception), and `waitOk k` tells whether the
`wait_for_completion` call of the `k`-th attempt returns normally (`false`
models a raised `TimeoutError`).  Callbacks are modelled by whether each slot of
`self.workflow_callbacks[execution_id] = [on_start, on_complete, on_error]` is
populated; invoking one emits an event.  Lock events delimit `with self.lock:`
blocks. -/

/-- Which of the three positional callbacks are populated (non-`None`). -/
structure Callbacks where
  on_start : Bool
  on_complete : Bool
  on_error : Bool
  deriving DecidableEq, Repr

/-- Manager retry parameters (`max_retries`, `retry_delay_seconds`). -/
structure RetryConfig where
  max_retries : Nat
  retry_delay_seconds : Nat
  deriving DecidableEq, Repr

/-- Observable events of one `_run_workflow_with_retry` run.  `serviceRun k b`
is the `k`-th call to `service.run_workflow` with `wait=b`; `register k` is the
write `self.active_workflows[execution_id] = workflow`; `waitBlock k` is the
worker blocking in `workflow.wait_for_completion`; `onStartEv` / `onErrorEv` /
`onCompleteEv` are callback invocations; `sleepMEv d` is `time.sleep(d)`;
`lockAcq` / `lockRel` delimit `with self.lock:`. -/
inductive MEvent where
  | serviceRun (attempt : Nat) (wait : Bool)
  | lockAcq
  | register (attempt : Nat)
  | lockRel
  | onStartEv (attempt : Nat)
  | waitBlock (attempt : Nat)
  | onErrorEv (attempt : Nat)
  | onCompleteEv (executionId : String)
  | sleepMEv (d : Nat)
  deriving DecidableEq, Repr

/-- The events of the `except` handler of attempt `retries`: `retries += 1`,
invoke `on_error` if populated, log, and sleep `retry_delay_seconds` if the
incremented count still admits a retry. -/
def exceptEvents (cfg : RetryConfig) (cbs : Callbacks) (retries : Nat) :
    List MEvent :=
  (if cbs.on_error then [MEvent.onErrorEv retries] else []) ++
    (if retries + 1 ≤ cfg.max_retries
      then [MEvent.sleepMEv cfg.retry_delay_seconds] else [])

/-- One run of the `while retries <= self.max_retries:` loop starting at retry
count `retries`, returning the event trace.  Each iteration calls
`service.run_workflow` with the literal `wait=False`; on success it registers
the handle under the lock, invokes `on_start` if populated, and, if the caller
asked to wait, blocks in `wait_for_completion` — whose failure is caught by the
same `except` as a submission failure.  `fuel` bounds the iterations; the
top-level entry point supplies `max_retries + 1`, which the loop can never
exceed since every non-final iteration increments `retries`. -/
def runRetry (cfg : RetryConfig) (cbs : Callbacks) (wait : Bool)
    (sub : Nat → Except Unit Handle) (waitOk : Nat → Bool) :
    Nat → Nat → List MEvent
  | 0, _ => []
  | fuel + 1, retries =>
      if retries ≤ cfg.max_retries then
        match sub retries with
        | Except.ok _ =>
            let okEvents :=
              MEvent.serviceRun retries false :: MEvent.lockAcq ::
                MEvent.register retries :: MEvent.lockRel ::
                ((if cbs.on_start then [MEvent.onStartEv retries] else []) ++
                  (if wait then [MEvent.waitBlock retries] else []))
            if wait && !(waitOk retries) then
              okEvents ++ exceptEvents cfg cbs retries ++
                runRetry cfg cbs wait sub waitOk fuel (retries + 1)
            else
              okEvents
        | Except.error _ =>
            MEvent.serviceRun retries false ::
              (exceptEvents cfg cbs retries ++
                runRetry cfg cbs wait sub waitOk fuel (retries + 1))
      else []

/-- `_run_workflow_with_retry` entered with `retries = 0`. -/
def runRetryTop (cfg : RetryConfig) (cbs : Callbacks) (wait : Bool)
    (sub : Nat → Except Unit Handle) (waitOk : Nat → Bool) : List MEvent :=
  runRetry cfg cbs wait sub waitOk (cfg.max_retries + 1) 0

/-- Recognises `onErrorEv` events. -/
def isOnErrorEv (e : MEvent) : Bool :=
  match e with
  | MEvent.onErrorEv _ => true
  | _ => false

/-- Recognises `onStartEv` events. -/
def isOnStartEv (e : MEvent) : Bool :=
  match e with
  | MEvent.onStartEv _ => true
  | _ => false

/-- Recognises `register` events. -/
def isRegisterEv (e : MEvent) : Bool :=
  match e with
  | MEvent.register _ => true
  | _ => false

/-- Recognises `onCompleteEv` events. -/
def isOnCompleteEv (e : MEvent) : Bool :=
  match e with
  | MEvent.onCompleteEv _ => true
  | _ => false

/-- Number of `on_error` invocations in a manager trace. -/
def countOnError (tr : List MEvent) : Nat := (tr.filter isOnErrorEv).length

/-- Number of `on_start` invocations in a manager trace. -/
def countOnStart (tr : List MEvent) : Nat := (tr.filter isOnStartEv).length

/-- Number of registry writes in a manager trace. -/
def countRegister (tr : List MEvent) : Nat := (tr.filter isRegisterEv).length

/-- Number of `on_complete` invocations in a manager trace. -/
def countOnComplete (tr : List MEvent) : Nat := (tr.filter isOnCompleteEv).length

/-! ### `WorkflowManager._monitor_workflows`

One pass of the poller's infinite loop.  The whole pass body runs inside
`with self.lock:`; for each `(execution_id, workflow)` of `active_workflows` it
tries `workflow.refresh()` then `workflow.is_complete` (a second remote get);
on a terminal state it records the id in `completed`, invokes the
`on_complete` callback if populated, and after the iteration deletes every
completed id from `active_workflows` and `workflow_callbacks`.  Any exception
in an entry's `try` block is caught and logged, leaving that entry in place.
A failing remote get is modelled by the `remote` function returning `none`. -/

/-- Observable events of one poller pass. -/
inductive PEvent where
  | lockAcquire
  | lockRelease
  | refreshCallEv (name : String)
  | pollerOnComplete (executionId : String)
  | sleepPEv (d : Nat)
  deriving DecidableEq, Repr

/-- One registry entry: the stored handle together with whether the
`on_complete` slot of its callback list is populated. -/
structure Entry where
  inv : WorkflowInvocation
  has_on_complete : Bool
  deriving DecidableEq, Repr

/-- The `try` block of `_monitor_workflows` for one registry entry: events
emitted, the entry as left in the registry (refresh mutates the shared handle
object in place), and whether the entry was appended to `completed`. -/
def processEntry (remote : String → Option WorkflowInvocation)
    (eid : String) (en : Entry) : List PEvent × Entry × Bool :=
  match remote en.inv.name with
  | none =>
      ([PEvent.refreshCallEv en.inv.name], en, false)
  | some s1 =>
      match remote s1.name with
      | none =>
          ([PEvent.refreshCallEv en.inv.name, PEvent.refreshCallEv s1.name],
           { en with inv := s1 }, false)
      | some s2 =>
          if terminal_states.contains s2.state then
            ([PEvent.refreshCallEv en.inv.name, PEvent.refreshCallEv s1.name] ++
               (if en.has_on_complete then [PEvent.pollerOnComplete eid] else []),
             { en with inv := s2 }, true)
          else
            ([PEvent.refreshCallEv en.inv.name, PEvent.refreshCallEv s1.name],
             { en with inv := s2 }, false)

/-- One full pass of `_monitor_workflows` over the registry (an association
list keyed by execution id): the event trace of the pass, and the registry
after the completed entries are deleted.  The trailing `time.sleep(5)` happens
after the lock is released. -/
def monitorPass (remote : String → Option WorkflowInvocation)
    (reg : List (String × Entry)) : List PEvent × List (String × Entry) :=
  let results := reg.map (fun p => (p.1, processEntry remote p.1 p.2))
  (PEvent.lockAcquire ::
     (results.flatMap (fun p => p.2.1) ++ [PEvent.lockRelease, PEvent.sleepPEv 5]),
   results.filterMap (fun p => if p.2.2.2 then none else some (p.1, p.2.2.1)))

/-- `true` when every `refreshCallEv` of the trace occurs at positive lock
depth, starting from depth `d`. -/
def pollerRefreshUnderLock : Nat → List PEvent → Bool
  | _, [] => true
  | d, PEvent.lockAcquire :: r => pollerRefreshUnderLock (d + 1) r
  | d, PEvent.lockRelease :: r => pollerRefreshUnderLock (d - 1) r
  | d, PEvent.refreshCallEv _ :: r => decide (0 < d) && pollerRefreshUnderLock d r
  | d, _ :: r => pollerRefreshUnderLock d r

/-- `true` when every `refreshCallEv` of the trace occurs at lock depth zero
(outside the mutex), starting from depth `d`: the property the spec asserts of
the poller's remote calls. -/
def pollerRefreshOutsideLock : Nat → List PEvent → Bool
  | _, [] => true
  | d, PEvent.lockAcquire :: r => pollerRefreshOutsideLock (d + 1) r
  | d, PEvent.lockRelease :: r => pollerRefreshOutsideLock (d - 1) r
  | d, PEvent.refreshCallEv _ :: r => decide (d = 0) && pollerRefreshOutsideLock d r
  | d, _ :: r => pollerRefreshOutsideLock d r

/-- `true` when every remote call of a manager retry trace — the `serviceRun`
submissions (compile+invoke) and the `waitBlock` waits (refresh loops) — occurs
at lock depth zero, starting from depth `d`. -/
def managerRemoteOutsideLock : Nat → List MEvent → Bool
  | _, [] => true
  | d, MEvent.lockAcq :: r => managerRemoteOutsideLock (d + 1) r
  | d, MEvent.lockRel :: r => managerRemoteOutsideLock (d - 1) r
  | d, MEvent.serviceRun _ _ :: r => decide (d = 0) && managerRemoteOutsideLock d r
  | d, MEvent.waitBlock _ :: r => decide (d = 0) && managerRemoteOutsideLock d r
  | d, _ :: r => managerRemoteOutsideLock d r

/-- `true` when every registry write of a manager retry trace occurs at
positive lock depth (under the mutex), starting from depth `d`. -/
def managerRegisterUnderLock : Nat → List MEvent → Bool
  | _, [] => true
  | d, MEvent.lockAcq :: r => managerRegisterUnderLock (d + 1) r
  | d, MEvent.lockRel :: r => managerRegisterUnderLock (d - 1) r
  | d, MEvent.register _ :: r => decide (0 < d) && managerRegisterUnderLock d r
  | d, _ :: r => managerRegisterUnderLock d r

/-- `DataformConfig`: construction-time configuration record. -/
structure DataformConfig where
  project_id : String
  location : String
  repo_name : String
  git_branch : String
  deriving DecidableEq, Repr

/-- `DataformConfig.repo_uri`: the f-string
`projects/.../locations/.../repositories/...`. -/
def DataformConfig.repo_uri (c : DataformConfig) : String :=
  "projects/" ++ c.project_id ++ "/locations/" ++ c.location ++
    "/repositories/" ++ c.repo_name

/-! ## Theorems -/

/-- Claim C8: for all valid projectId, location and repoName the configuration's
repoURI equals the literal concatenation
`projects/{projectId}/locations/{location}/repositories/{repoName}`, and in
particular for project "test-project", location "us-central1", repo "test-repo"
it equals "projects/test-project/locations/us-central1/repositories/test-repo". -/
theorem repo_uri_is_concatenation :
    (∀ p l r g : String,
      DataformConfig.repo_uri ⟨p, l, r, g⟩ =
        "projects/" ++ p ++ "/locations/" ++ l ++ "/repositories/" ++ r) ∧
    DataformConfig.repo_uri ⟨"test-project", "us-central1", "test-repo", "main"⟩ =
      "projects/test-project/locations/us-central1/repositories/test-repo" :=
  ⟨fun _ _ _ _ => rfl, rfl⟩

/-- Claim C6: `duration_seconds` returns none whenever the start or the end
timestamp is absent from the snapshot, and when both are present it equals
`(end.seconds - start.seconds) + (end.nanos - start.nanos) / 1e9`. -/
theorem duration_seconds_correct (h : Handle) :
    (h.start_time = none ∨ h.end_time = none → h.duration_seconds = none) ∧
    (∀ s e : Timestamp, h.start_time = some s → h.end_time = some e →
      h.duration_seconds =
        some ((e.seconds - s.seconds : ℚ) + (e.nanos - s.nanos : ℚ) / 1000000000)) := by
  refine ⟨?_, ?_⟩
  · intro hne
    rcases hne with hs | he
    · simp [Handle.duration_seconds, hs]
    · rcases hs2 : h.start_time with _ | s
      · simp [Handle.duration_seconds, hs2]
      · simp [Handle.duration_seconds, hs2, he]
  · intro s e hs he
    simp [Handle.duration_seconds, hs, he]

/-- An example handle whose snapshot carries both timestamps. -/
def hTimed : Handle :=
  ⟨⟨"w0", "c0", WState.SUCCEEDED, some ⟨some ⟨10, 0⟩, some ⟨13, 500000000⟩⟩⟩⟩

/-- Witness for C6 at a concrete snapshot: 10s/0ns to 13s/500000000ns is
3.5 seconds. -/
theorem duration_seconds_correct_witness :
    Handle.duration_seconds hTimed = some (7 / 2) := by
  have hmain := (duration_seconds_correct hTimed).2 ⟨10, 0⟩ ⟨13, 500000000⟩ rfl rfl
  rw [hmain]
  norm_num

/-- Claim C7: for every snapshot state, `is_complete` returns true iff the
(freshly refreshed) state is SUCCEEDED, FAILED, or CANCELLED, and false for
PENDING and RUNNING — i.e. it agrees with the spec's `specIsComplete` on the
state `refresh` fetches. -/
theorem is_complete_matches_spec (remote : String → WorkflowInvocation)
    (h : Handle) :
    (Handle.is_complete remote h).1 = specIsComplete (remote h.inv.name).state := by
  have hdef : (Handle.is_complete remote h).1 =
      terminal_states.contains (remote h.inv.name).state := rfl
  rw [hdef]
  cases (remote h.inv.name).state <;> rfl

/-- Claim C9: calling `refresh` twice in a row against an unchanged remote —
a fixed get endpoint that returns, for each invocation name, the snapshot
bearing that name — stores identical snapshots both times. -/
theorem refresh_idempotent (g : String → WorkflowInvocation) (h : Handle)
    (hg : ∀ n, (g n).name = n) :
    ((refreshOp g (refreshOp g h).1).1).inv = ((refreshOp g h).1).inv := by
  simp [refreshOp, hg]

/-- An unchanging remote for the C9 witness: every name maps to a RUNNING
snapshot bearing that name. -/
def gFixed : String → WorkflowInvocation :=
  fun n => ⟨n, "c0", WState.RUNNING, none⟩

/-- An example handle for the C9 witness. -/
def hPending : Handle := ⟨⟨"w1", "c0", WState.PENDING, none⟩⟩

/-- Witness for C9 at a concrete handle and remote. -/
theorem refresh_idempotent_witness :
    ((refreshOp gFixed (refreshOp gFixed hPending).1).1).inv =
      ((refreshOp gFixed hPending).1).inv :=
  refresh_idempotent gFixed hPending (fun _ => rfl)

/-- Claim C10: the timing accessors `start_time`, `end_time` and
`duration_seconds` leave the stored snapshot unchanged and make no remote call,
while the state-querying operations (`is_complete`, `is_successful`) each make
a remote get. -/
theorem timing_accessors_pure (remote : String → WorkflowInvocation)
    (h : Handle) :
    (startTimeOp h).2.1 = h ∧ (startTimeOp h).2.2 = [] ∧
    (endTimeOp h).2.1 = h ∧ (endTimeOp h).2.2 = [] ∧
    (durationSecondsOp h).2.1 = h ∧ (durationSecondsOp h).2.2 = [] ∧
    (Handle.is_complete remote h).2.2 = [RemoteCall.getInvocation h.inv.name] ∧
    (Handle.is_successful remote h).2.2 = [RemoteCall.getInvocation h.inv.name] :=
  ⟨rfl, rfl, rfl, rfl, rfl, rfl, rfl, rfl⟩

/-- Helper for C2: against a never-terminal remote, the wait loop runs until
the elapsed-time guard fails and reports the timeout at an elapsed time in
`[timeout, timeout + poll)`. -/
theorem waitFor_timeout_aux (remote : Nat → String → WorkflowInvocation)
    (poll timeout : Nat) (hpoll : 1 ≤ poll)
    (hnt : ∀ t n, terminal_states.contains (remote t n).state = false) :
    ∀ fuel e h, timeout - e < fuel → e < timeout + poll →
      ∃ T, (waitFor remote poll timeout fuel e h).1 =
          some (WaitResult.timedOut T) ∧ timeout ≤ T ∧ T < timeout + poll := by
  intro fuel
  induction fuel with
  | zero => intro e h h1 h2; omega
  | succ n ih =>
    intro e h h1 h2
    by_cases he : e < timeout
    · have hterm : (remote e ((remote e h.inv.name).name)).state ∉ terminal_states := by
        simpa using hnt e ((remote e h.inv.name).name)
      have hstep : (waitFor remote poll timeout (n + 1) e h).1 =
          (waitFor remote poll timeout n (e + poll)
            ⟨remote e ((remote e h.inv.name).name)⟩).1 := by
        simp [waitFor, he, Handle.is_complete, refreshOp, hterm]
      rw [hstep]
      exact ih (e + poll) _ (by omega) (by omega)
    · refine ⟨e, ?_, by omega, by omega⟩
      simp [waitFor, he]

/-- Claim C2 (amended): `wait_for_completion` is a single-threaded loop that,
on every iteration, first refreshes, then checks for a terminal state, then
sleeps; against a handle whose state never becomes terminal it raises
TimeoutError at the first poll boundary at or after `timeout_seconds` of
wall-clock time from call start — so after approximately `timeout_seconds`,
never earlier.  The first event of the run is a refresh, not a sleep. -/
theorem wait_for_completion_timeout (remote : Nat → String → WorkflowInvocation)
    (poll timeout fuel : Nat) (h : Handle)
    (hpoll : 1 ≤ poll) (hfuel : timeout < fuel)
    (hnt : ∀ t n, terminal_states.contains (remote t n).state = false) :
    (∃ T, (waitFor remote poll timeout fuel 0 h).1 =
        some (WaitResult.timedOut T) ∧ timeout ≤ T ∧ T < timeout + poll) ∧
    (0 < timeout →
      (waitFor remote poll timeout fuel 0 h).2.head? =
        some (WEvent.refreshEv 0)) := by
  constructor
  · exact waitFor_timeout_aux remote poll timeout hpoll hnt fuel 0 h (by omega) (by omega)
  · intro htpos
    rcases fuel with _ | n
    · omega
    · have hterm : (remote 0 ((remote 0 h.inv.name).name)).state ∉ terminal_states := by
        simpa using hnt 0 ((remote 0 h.inv.name).name)
      simp [waitFor, htpos, Handle.is_complete, refreshOp, hterm]

/-- A remote whose snapshots are always RUNNING, for the C2 theorems. -/
def neverTerminalRemote : Nat → String → WorkflowInvocation :=
  fun _ n => ⟨n, "c0", WState.RUNNING, none⟩

/-- An example handle for the C2 theorems. -/
def hRunning : Handle := ⟨⟨"w1", "c0", WState.RUNNING, none⟩⟩

/-- Witness for the amended C2 at poll=1, timeout=2: the timeout fires and the
run starts with a refresh. -/
theorem wait_for_completion_timeout_witness :
    (∃ T, (waitFor neverTerminalRemote 1 2 3 0 hRunning).1 =
        some (WaitResult.timedOut T) ∧ 2 ≤ T ∧ T < 2 + 1) ∧
    (0 < 2 →
      (waitFor neverTerminalRemote 1 2 3 0 hRunning).2.head? =
        some (WEvent.refreshEv 0)) :=
  wait_for_completion_timeout neverTerminalRemote 1 2 3 hRunning
    (by decide) (by decide) (fun _ _ => rfl)

/-- Claim C2, counterexample to the claimed iteration ordering: with poll=1 and
timeout=2 against a never-terminal handle, the complete event trace of the run
begins with a refresh at elapsed time 0 — the loop refreshes and checks before
it ever sleeps, so an iteration does not "first sleep, then refresh, then
check".  (The timeout itself is raised at elapsed time 2, as claimed.) -/
theorem wait_for_completion_order_counterexample :
    (waitFor neverTerminalRemote 1 2 3 0 hRunning).2 =
      [WEvent.refreshEv 0, WEvent.refreshEv 0, WEvent.checkEv 0 false,
       WEvent.sleepEv 0 1, WEvent.refreshEv 1, WEvent.refreshEv 1,
       WEvent.checkEv 1 false, WEvent.sleepEv 1 1] ∧
    (waitFor neverTerminalRemote 1 2 3 0 hRunning).2.head? ≠
      some (WEvent.sleepEv 0 1) ∧
    (waitFor neverTerminalRemote 1 2 3 0 hRunning).1 =
      some (WaitResult.timedOut 2) := by
  refine ⟨by decide, by decide, by decide⟩

/-- Helper for C1: when every submission raises and `on_error` is populated,
the loop from retry count `retries` invokes `on_error` once per remaining
attempt and emits no start, register, or completion events. -/
theorem runRetry_fail_aux (cfg : RetryConfig) (cbs : Callbacks) (wait : Bool)
    (sub : Nat → Except Unit Handle) (waitOk : Nat → Bool)
    (hfail : ∀ k, sub k = Except.error ()) (herr : cbs.on_error = true) :
    ∀ fuel retries, cfg.max_retries < retries + fuel →
      countOnError (runRetry cfg cbs wait sub waitOk fuel retries) =
          cfg.max_retries + 1 - retries ∧
      countOnStart (runRetry cfg cbs wait sub waitOk fuel retries) = 0 ∧
      countRegister (runRetry cfg cbs wait sub waitOk fuel retries) = 0 ∧
      countOnComplete (runRetry cfg cbs wait sub waitOk fuel retries) = 0 := by
  intro fuel
  induction fuel with
  | zero =>
    intro retries hr
    refine ⟨?_, rfl, rfl, rfl⟩
    simp [runRetry, countOnError]
    omega
  | succ n ih =>
    intro retries hr
    by_cases hle : retries ≤ cfg.max_retries
    · have hrec := ih (retries + 1) (by omega)
      by_cases hsl : retries + 1 ≤ cfg.max_retries
      · simp only [runRetry, hle, if_true, hfail retries, exceptEvents, herr, hsl,
          countOnError, countOnStart, countRegister, countOnComplete,
          List.filter_cons, List.filter_append, List.length_append,
          isOnErrorEv, isOnStartEv, isRegisterEv, isOnCompleteEv] at hrec ⊢
        simp_all
        omega
      · simp only [runRetry, hle, if_true, hfail retries, exceptEvents, herr, hsl,
          countOnError, countOnStart, countRegister, countOnComplete,
          List.filter_cons, List.filter_append, List.length_append,
          isOnErrorEv, isOnStartEv, isRegisterEv, isOnCompleteEv] at hrec ⊢
        simp_all
        omega
    · refine ⟨?_, ?_, ?_, ?_⟩ <;>
        simp [runRetry, hle, countOnError, countOnStart, countRegister,
          countOnComplete] <;> omega

/-- Claim C1: when the underlying submission raises on every attempt and the
caller supplied an `on_error` callback, the retry loop invokes `on_error`
exactly `max_retries + 1` times (once per attempt) and never invokes
`on_start` or `on_complete` — nor does it ever register a handle, so the
background poller has nothing to complete for this execution either. -/
theorem retry_all_failures_callback_counts (cfg : RetryConfig) (cbs : Callbacks)
    (wait : Bool) (sub : Nat → Except Unit Handle) (waitOk : Nat → Bool)
    (hfail : ∀ k, sub k = Except.error ()) (herr : cbs.on_error = true) :
    countOnError (runRetryTop cfg cbs wait sub waitOk) = cfg.max_retries + 1 ∧
    countOnStart (runRetryTop cfg cbs wait sub waitOk) = 0 ∧
    countRegister (runRetryTop cfg cbs wait sub waitOk) = 0 ∧
    countOnComplete (runRetryTop cfg cbs wait sub waitOk) = 0 := by
  have hmain := runRetry_fail_aux cfg cbs wait sub waitOk hfail herr
    (cfg.max_retries + 1) 0 (by omega)
  simpa [runRetryTop] using hmain

/-- Witness for C1 with `max_retries = 2` and all callbacks populated: three
`on_error` invocations, nothing else. -/
theorem retry_all_failures_callback_counts_witness :
    countOnError (runRetryTop ⟨2, 30⟩ ⟨true, true, true⟩ true
        (fun _ => Except.error ()) (fun _ => true)) = 2 + 1 ∧
    countOnStart (runRetryTop ⟨2, 30⟩ ⟨true, true, true⟩ true
        (fun _ => Except.error ()) (fun _ => true)) = 0 ∧
    countRegister (runRetryTop ⟨2, 30⟩ ⟨true, true, true⟩ true
        (fun _ => Except.error ()) (fun _ => true)) = 0 ∧
    countOnComplete (runRetryTop ⟨2, 30⟩ ⟨true, true, true⟩ true
        (fun _ => Except.error ()) (fun _ => true)) = 0 :=
  retry_all_failures_callback_counts ⟨2, 30⟩ ⟨true, true, true⟩ true
    (fun _ => Except.error ()) (fun _ => true) (fun _ => rfl) rfl

/-- `true` for every event except a blocking submission: `serviceRun` with
`wait=true` is the one thing `_run_workflow_with_retry` never does. -/
def nonBlockingEv (e : MEvent) : Bool :=
  match e with
  | MEvent.serviceRun _ b => !b
  | _ => true

/-- Helper for C3: every event of any retry-loop trace is non-blocking — in
particular every `service.run_workflow` call carries `wait=False`. -/
theorem runRetry_nonblocking (cfg : RetryConfig) (cbs : Callbacks) (wait : Bool)
    (sub : Nat → Except Unit Handle) (waitOk : Nat → Bool) :
    ∀ fuel retries,
      (runRetry cfg cbs wait sub waitOk fuel retries).all nonBlockingEv = true := by
  intro fuel
  induction fuel with
  | zero => intro retries; rfl
  | succ n ih =>
    intro retries
    by_cases hle : retries ≤ cfg.max_retries
    · cases hsub : sub retries with
      | ok h =>
        by_cases hw : (wait && !(waitOk retries)) = true
        · simp [runRetry, hle, hsub, hw, exceptEvents, nonBlockingEv,
            List.all_append, ih, apply_ite (List.all · nonBlockingEv)]
        · simp [runRetry, hle, hsub, hw, exceptEvents, nonBlockingEv,
            List.all_append, apply_ite (List.all · nonBlockingEv)]
      | error e =>
        simp [runRetry, hle, hsub, exceptEvents, nonBlockingEv,
          List.all_append, ih, apply_ite (List.all · nonBlockingEv)]
    · simp [runRetry, hle]

/-- Helper for C3: if every attempt before `k` raises and attempt `k`'s
submission succeeds, then with `on_start` populated and `wait` requested the
trace contains, in order, the submission, the lock-guarded registration, the
`on_start` invocation, and the blocking wait of attempt `k`. -/
theorem runRetry_success_block (cfg : RetryConfig) (cbs : Callbacks)
    (wait : Bool) (sub : Nat → Except Unit Handle) (waitOk : Nat → Bool)
    (hstart : cbs.on_start = true) (hwait : wait = true) :
    ∀ fuel retries k h, retries ≤ k → k < retries + fuel →
      k ≤ cfg.max_retries →
      (∀ j, retries ≤ j → j < k → sub j = Except.error ()) →
      sub k = Except.ok h →
      [MEvent.serviceRun k false, MEvent.lockAcq, MEvent.register k,
       MEvent.lockRel, MEvent.onStartEv k, MEvent.waitBlock k].Sublist
        (runRetry cfg cbs wait sub waitOk fuel retries) := by
  intro fuel
  induction fuel with
  | zero => intro retries k h hrk hk hkm hprev hok; omega
  | succ n ih =>
    intro retries k h hrk hk hkm hprev hok
    by_cases hek : retries = k
    · subst hek
      subst hwait
      by_cases hw : waitOk retries = true
      · simp only [runRetry, hkm, if_true, hok, hstart, hw, Bool.not_true,
          Bool.and_false, Bool.false_eq_true, if_false, List.cons_append,
          List.singleton_append, List.nil_append]
        exact List.Sublist.refl _
      · simp only [runRetry, hkm, if_true, hok, hstart,
          Bool.eq_false_iff.mpr hw, Bool.not_false, Bool.and_true, if_true,
          Bool.true_and, List.cons_append, List.singleton_append,
          List.nil_append]
        exact List.sublist_append_left _ _
    · have hlt : retries < k := lt_of_le_of_ne hrk hek
      have hsub := hprev retries (Nat.le_refl retries) hlt
      have hle : retries ≤ cfg.max_retries := le_trans (Nat.le_of_lt hlt) hkm
      have hrec := ih (retries + 1) k h (by omega) (by omega) hkm
        (fun j hj1 hj2 => hprev j (by omega) hj2) hok
      simp only [runRetry, hle, if_true, hsub]
      exact (hrec.trans (List.sublist_append_right _ _)).cons _

/-- Claim C3: every `service.run_workflow` call the retry loop makes carries
`wait=False` regardless of the caller's `wait` flag, and on the first
successful submission the trace contains, in order: the submission, the
registry write bracketed by the mutex, the `on_start` invocation, and — since
the caller requested `wait` — the worker blocking until a terminal state. -/
theorem retry_submission_nonblocking (cfg : RetryConfig) (cbs : Callbacks)
    (wait : Bool) (sub : Nat → Except Unit Handle) (waitOk : Nat → Bool)
    (k : Nat) (h : Handle) (hk : k ≤ cfg.max_retries)
    (hprev : ∀ j, j < k → sub j = Except.error ())
    (hok : sub k = Except.ok h)
    (hstart : cbs.on_start = true) (hwait : wait = true) :
    (∀ a b, MEvent.serviceRun a b ∈ runRetryTop cfg cbs wait sub waitOk →
      b = false) ∧
    [MEvent.serviceRun k false, MEvent.lockAcq, MEvent.register k,
     MEvent.lockRel, MEvent.onStartEv k, MEvent.waitBlock k].Sublist
      (runRetryTop cfg cbs wait sub waitOk) := by
  constructor
  · intro a b hmem
    have hall := runRetry_nonblocking cfg cbs wait sub waitOk
      (cfg.max_retries + 1) 0
    have hb := List.all_eq_true.mp hall _ hmem
    simpa [nonBlockingEv] using hb
  · exact runRetry_success_block cfg cbs wait sub waitOk hstart hwait
      (cfg.max_retries + 1) 0 k h (Nat.zero_le k) (by omega) hk
      (fun j _ hj2 => hprev j hj2) hok

/-- A submission oracle for the C3 witness: the first attempt raises, the
second succeeds. -/
def subFailThenOk : Nat → Except Unit Handle :=
  fun j => if j = 0 then Except.error () else Except.ok hRunning

/-- Witness for C3 with `max_retries = 1`: attempt 0 fails, attempt 1 succeeds
and produces the submit/register/start/wait block. -/
theorem retry_submission_nonblocking_witness :
    (∀ a b, MEvent.serviceRun a b ∈
        runRetryTop ⟨1, 30⟩ ⟨true, true, true⟩ true subFailThenOk
          (fun _ => true) → b = false) ∧
    [MEvent.serviceRun 1 false, MEvent.lockAcq, MEvent.register 1,
     MEvent.lockRel, MEvent.onStartEv 1, MEvent.waitBlock 1].Sublist
      (runRetryTop ⟨1, 30⟩ ⟨true, true, true⟩ true subFailThenOk
        (fun _ => true)) :=
  retry_submission_nonblocking ⟨1, 30⟩ ⟨true, true, true⟩ true subFailThenOk
    (fun _ => true) 1 hRunning (by decide)
    (fun j hj => by
      have hj0 : j = 0 := Nat.lt_one_iff.mp hj
      rw [hj0]; rfl)
    rfl rfl rfl

/-- A remote get that always succeeds with a RUNNING snapshot, for the C4
counterexample. -/
def remoteRunningOpt : String → Option WorkflowInvocation :=
  fun n => some ⟨n, "c0", WState.RUNNING, none⟩

/-- A one-entry registry for the C4 counterexample. -/
def regOne : List (String × Entry) :=
  [("exec-1", ⟨⟨"w1", "c0", WState.RUNNING, none⟩, true⟩)]

/-- Claim C4, counterexample: in a poller pass over a one-entry registry the
refresh remote calls happen strictly between the mutex acquire and release —
`_monitor_workflows` wraps its whole pass body, `workflow.refresh()` included,
in `with self.lock:`, so it is false that every remote call the manager makes
happens outside the lock. -/
theorem poller_refresh_outside_lock_counterexample :
    pollerRefreshOutsideLock 0 (monitorPass remoteRunningOpt regOne).1 = false ∧
    (monitorPass remoteRunningOpt regOne).1 =
      [PEvent.lockAcquire, PEvent.refreshCallEv "w1", PEvent.refreshCallEv "w1",
       PEvent.lockRelease, PEvent.sleepPEv 5] := by
  refine ⟨by decide, by decide⟩

/-- Helper for C4: the retry loop's remote calls — the compile+invoke
submissions and the blocking waits — all happen at lock depth zero. -/
theorem runRetry_remote_outside_lock (cfg : RetryConfig) (cbs : Callbacks)
    (sub : Nat → Except Unit Handle) (waitOk : Nat → Bool) :
    ∀ fuel (wait : Bool) retries,
      managerRemoteOutsideLock 0 (runRetry cfg cbs wait sub waitOk fuel retries) =
        true := by
  intro fuel
  induction fuel with
  | zero => intro wait retries; rfl
  | succ n ih =>
    intro wait retries
    by_cases hle : retries ≤ cfg.max_retries
    · cases wait <;>
        cases hsub : sub retries <;>
          cases hwo : waitOk retries <;>
            cases hst : cbs.on_start <;>
              cases her : cbs.on_error <;>
                by_cases hsl : retries + 1 ≤ cfg.max_retries <;>
                  simp [runRetry, hle, hsub, hwo, hst, her, hsl,
                    exceptEvents, managerRemoteOutsideLock, ih]
    · simp [runRetry, hle, managerRemoteOutsideLock]

/-- Helper for C4: the retry loop's registry write always happens at positive
lock depth (inside `with self.lock:`). -/
theorem runRetry_register_under_lock (cfg : RetryConfig) (cbs : Callbacks)
    (sub : Nat → Except Unit Handle) (waitOk : Nat → Bool) :
    ∀ fuel (wait : Bool) retries,
      managerRegisterUnderLock 0 (runRetry cfg cbs wait sub waitOk fuel retries) =
        true := by
  intro fuel
  induction fuel with
  | zero => intro wait retries; rfl
  | succ n ih =>
    intro wait retries
    by_cases hle : retries ≤ cfg.max_retries
    · cases wait <;>
        cases hsub : sub retries <;>
          cases hwo : waitOk retries <;>
            cases hst : cbs.on_start <;>
              cases her : cbs.on_error <;>
                by_cases hsl : retries + 1 ≤ cfg.max_retries <;>
                  simp [runRetry, hle, hsub, hwo, hst, her, hsl,
                    exceptEvents, managerRegisterUnderLock, ih]
    · simp [runRetry, hle, managerRegisterUnderLock]

/-- Helper for C4: every refresh of a poller pass happens at positive lock
depth. -/
theorem processEntry_events_shape (remote : String → Option WorkflowInvocation)
    (eid : String) (en : Entry) :
    ∀ e ∈ (processEntry remote eid en).1,
      (∃ n, e = PEvent.refreshCallEv n) ∨ ∃ i, e = PEvent.pollerOnComplete i := by
  intro e he
  rcases hr1 : remote en.inv.name with _ | s1
  · simp [processEntry, hr1] at he
    exact Or.inl ⟨_, he⟩
  · rcases hr2 : remote s1.name with _ | s2
    · simp [processEntry, hr1, hr2] at he
      rcases he with he | he
      · exact Or.inl ⟨_, he⟩
      · exact Or.inl ⟨_, he⟩
    · by_cases hterm : s2.state ∈ terminal_states
      · by_cases hc : en.has_on_complete = true
        · simp [processEntry, hr1, hr2, hterm, hc] at he
          rcases he with he | he | he
          · exact Or.inl ⟨_, he⟩
          · exact Or.inl ⟨_, he⟩
          · exact Or.inr ⟨_, he⟩
        · simp [processEntry, hr1, hr2, hterm, hc] at he
          rcases he with he | he
          · exact Or.inl ⟨_, he⟩
          · exact Or.inl ⟨_, he⟩
      · simp [processEntry, hr1, hr2, hterm] at he
        rcases he with he | he
        · exact Or.inl ⟨_, he⟩
        · exact Or.inl ⟨_, he⟩

/-- Helper for C4: the lock-depth scan is unaffected by a prefix of pure
refresh/callback events when the lock is already held. -/
theorem pollerRefreshUnderLock_skip :
    ∀ l1 l2 : List PEvent,
      (∀ e ∈ l1,
        (∃ n, e = PEvent.refreshCallEv n) ∨ ∃ i, e = PEvent.pollerOnComplete i) →
      pollerRefreshUnderLock 1 (l1 ++ l2) = pollerRefreshUnderLock 1 l2 := by
  intro l1
  induction l1 with
  | nil => intro l2 _; rfl
  | cons e r ihr =>
    intro l2 hall
    have hrest := ihr l2 (fun x hx => hall x (List.mem_cons_of_mem _ hx))
    rcases hall e (List.mem_cons_self e r) with ⟨n, rfl⟩ | ⟨i, rfl⟩
    · simp [pollerRefreshUnderLock, hrest]
    · simp [pollerRefreshUnderLock, hrest]

/-- Helper for C4: every refresh of a poller pass happens at positive lock
depth. -/
theorem monitorPass_refresh_under_lock (remote : String → Option WorkflowInvocation)
    (reg : List (String × Entry)) :
    pollerRefreshUnderLock 0 (monitorPass remote reg).1 = true := by
  have haux : ∀ rs : List (String × Entry),
      pollerRefreshUnderLock 1
        ((rs.map fun p => (p.1, processEntry remote p.1 p.2)).flatMap
            (fun p => p.2.1) ++ [PEvent.lockRelease, PEvent.sleepPEv 5]) =
        true := by
    intro rs
    induction rs with
    | nil => rfl
    | cons hd tl ih =>
      simp only [List.map_cons, List.flatMap_cons, List.append_assoc]
      rw [pollerRefreshUnderLock_skip _ _
        (processEntry_events_shape remote hd.1 hd.2)]
      exact ih
  simpa [monitorPass, pollerRefreshUnderLock] using haux reg

/-- Claim C4 (amended): the retry loop's remote calls — compile+invoke
submissions and blocking waits — and the poller's trailing sleep happen outside
the mutex, and the registry write happens under it; but the background poller
performs its refresh remote calls while holding the mutex, since
`_monitor_workflows` runs its whole pass body inside `with self.lock:`. -/
theorem manager_lock_discipline (cfg : RetryConfig) (cbs : Callbacks)
    (wait : Bool) (sub : Nat → Except Unit Handle) (waitOk : Nat → Bool)
    (remote : String → Option WorkflowInvocation)
    (reg : List (String × Entry)) :
    managerRemoteOutsideLock 0 (runRetryTop cfg cbs wait sub waitOk) = true ∧
    managerRegisterUnderLock 0 (runRetryTop cfg cbs wait sub waitOk) = true ∧
    pollerRefreshUnderLock 0 (monitorPass remote reg).1 = true :=
  ⟨runRetry_remote_outside_lock cfg cbs sub waitOk (cfg.max_retries + 1) wait 0,
   runRetry_register_under_lock cfg cbs sub waitOk (cfg.max_retries + 1) wait 0,
   monitorPass_refresh_under_lock remote reg⟩

/-- Helper for C5: in an association list with distinct keys, a key determines
its value. -/
theorem assoc_key_unique {α β : Type} (k : α) (b1 b2 : β) :
    ∀ l : List (α × β), (l.map Prod.fst).Nodup →
      (k, b1) ∈ l → (k, b2) ∈ l → b1 = b2 := by
  intro l
  induction l with
  | nil => intro _ h1 _; cases h1
  | cons hd tl ih =>
    intro hnd h1 h2
    rw [List.map_cons] at hnd
    have hnd2 := List.nodup_cons.mp hnd
    rcases List.mem_cons.mp h1 with he1 | ht1
    · rcases List.mem_cons.mp h2 with he2 | ht2
      · exact (Prod.ext_iff.mp (he1.trans he2.symm)).2
      · have hkin : k ∈ tl.map Prod.fst := List.mem_map_of_mem Prod.fst ht2
        have hk : hd.1 = k := by rw [← he1]
        exact absurd hkin (hk ▸ hnd2.1)
    · rcases List.mem_cons.mp h2 with he2 | ht2
      · have hkin : k ∈ tl.map Prod.fst := List.mem_map_of_mem Prod.fst ht1
        have hk : hd.1 = k := by rw [← he2]
        exact absurd hkin (hk ▸ hnd2.1)
      · exact ih hnd2.2 ht1 ht2

/-- Claim C5: in a poller pass over a registry that contains an entry whose
refresh raises (the remote get returns `none`), the failure is caught: the
failing entry merely stays registered, while any other registered entry whose
refreshed state is terminal still has its `on_complete` callback invoked during
the pass and is evicted from the registry afterwards. -/
theorem monitor_pass_isolation_and_eviction
    (remote : String → Option WorkflowInvocation)
    (reg1 reg2 : List (String × Entry)) (beid : String) (ben : Entry)
    (eid : String) (en : Entry) (s1 s2 : WorkflowInvocation)
    (hbad : remote ben.inv.name = none)
    (hmem : (eid, en) ∈ reg1 ++ reg2)
    (h1 : remote en.inv.name = some s1) (h2 : remote s1.name = some s2)
    (hterm : s2.state ∈ terminal_states)
    (hcb : en.has_on_complete = true)
    (hnodup : (((reg1 ++ (beid, ben) :: reg2)).map Prod.fst).Nodup) :
    PEvent.pollerOnComplete eid ∈
      (monitorPass remote (reg1 ++ (beid, ben) :: reg2)).1 ∧
    (∀ en2 : Entry,
      (eid, en2) ∉ (monitorPass remote (reg1 ++ (beid, ben) :: reg2)).2) ∧
    (beid, ben) ∈ (monitorPass remote (reg1 ++ (beid, ben) :: reg2)).2 := by
  have hmemReg : (eid, en) ∈ reg1 ++ (beid, ben) :: reg2 := by
    rcases List.mem_append.mp hmem with hm | hm
    · exact List.mem_append_left _ hm
    · exact List.mem_append_right _ (List.mem_cons_of_mem _ hm)
  have hev : PEvent.pollerOnComplete eid ∈ (processEntry remote eid en).1 := by
    simp [processEntry, h1, h2, hterm, hcb]
  have hdoneTrue : (processEntry remote eid en).2.2 = true := by
    simp [processEntry, h1, h2, hterm]
  refine ⟨?_, ?_, ?_⟩
  · simp only [monitorPass]
    refine List.mem_cons_of_mem _ (List.mem_append_left _ ?_)
    exact List.mem_flatMap.mpr
      ⟨(eid, processEntry remote eid en), List.mem_map_of_mem _ hmemReg, hev⟩
  · intro en2 hmem2
    simp only [monitorPass] at hmem2
    rcases List.mem_filterMap.mp hmem2 with ⟨q, hq, heq⟩
    rcases List.mem_map.mp hq with ⟨p, hp, rfl⟩
    by_cases hdone : (processEntry remote p.1 p.2).2.2 = true
    · rw [if_pos hdone] at heq
      cases heq
    · rw [if_neg hdone] at heq
      have hpe : p.1 = eid := (Prod.ext_iff.mp (Option.some.inj heq)).1
      have hpmem : (eid, p.2) ∈ reg1 ++ (beid, ben) :: reg2 := by
        rw [← hpe]
        exact hp
      have hsame : p.2 = en :=
        assoc_key_unique eid p.2 en _ hnodup hpmem hmemReg
      rw [hpe, hsame] at hdone
      exact hdone hdoneTrue
  · simp only [monitorPass]
    refine List.mem_filterMap.mpr
      ⟨(beid, processEntry remote beid ben),
       List.mem_map_of_mem _
         (List.mem_append_right _ (List.mem_cons_self _ _)), ?_⟩
    simp [processEntry, hbad]

/-- A remote for the C5 witness: the invocation named "bad" cannot be fetched,
every other name yields a SUCCEEDED snapshot. -/
def remoteC5 : String → Option WorkflowInvocation :=
  fun n => if n = "bad" then none else some ⟨n, "c0", WState.SUCCEEDED, none⟩

/-- The failing entry for the C5 witness. -/
def entryBad : Entry := ⟨⟨"bad", "c0", WState.RUNNING, none⟩, true⟩

/-- The completing entry for the C5 witness. -/
def entryOk : Entry := ⟨⟨"w2", "c0", WState.RUNNING, none⟩, true⟩

/-- Witness for C5: entry "exec-1" fails to refresh first in the pass, yet
"exec-2" still completes, gets its callback, and is evicted, while "exec-1"
remains registered. -/
theorem monitor_pass_isolation_and_eviction_witness :
    PEvent.pollerOnComplete "exec-2" ∈
      (monitorPass remoteC5 ([] ++ ("exec-1", entryBad) :: [("exec-2", entryOk)])).1 ∧
    (∀ en2 : Entry,
      ("exec-2", en2) ∉
        (monitorPass remoteC5 ([] ++ ("exec-1", entryBad) :: [("exec-2", entryOk)])).2) ∧
    ("exec-1", entryBad) ∈
      (monitorPass remoteC5 ([] ++ ("exec-1", entryBad) :: [("exec-2", entryOk)])).2 :=
  monitor_pass_isolation_and_eviction remoteC5 [] [("exec-2", entryOk)]
    "exec-1" entryBad "exec-2" entryOk
    ⟨"w2", "c0", WState.SUCCEEDED, none⟩ ⟨"w2", "c0", WState.SUCCEEDED, none⟩
    (by decide) (by decide) (by decide) (by decide) (by decide) rfl (by decide)

end PyDataform
